import Mathlib

/-!
Shallow embedding of the `starknet-validator-attestation` agent.

The embedding covers the attestation-schedule oracle
(`src/attestation_info.rs`), the per-epoch attestation state machine
(`src/state.rs`), the event handler, and the supervisor's header/reorg
handling (`src/main.rs`).

Modelling conventions:
- Starknet field elements (`Felt`) are modelled as `Nat`; every `Felt`
  produced by the code is a canonical representative below the Stark prime.
- `u64`/`u128`/`u16` quantities are modelled as `Nat`.  The arithmetic the
  claims exercise stays far below the wrap-around points; claims never rely
  on two's-complement wrapping.
- The Poseidon hash `H(stake, epoch_id, staker_address)` is an opaque
  parameter `H : Nat → Nat → Nat → Nat`; its output is reduced modulo the
  Stark prime, exactly the shape of `PoseidonHasher::finalize`, so
  theorems hold for every hash function, Poseidon included.
- The JSON-RPC client trait (`src/jsonrpc.rs`) is a record of response
  functions; the error payloads (`ClientError`) are collapsed to `Unit`
  since the state machine only distinguishes success from failure.
- Metric counters/gauges and issued RPC calls are returned explicitly as
  an effect record `Eff`, one record per `handle_new_block_header` /
  `handle_new_event` invocation.
-/

namespace ValidatorAttestation

/-- The Stark field prime, `2^251 + 17 * 2^192 + 1`. -/
def STARK_PRIME : Nat := 2 ^ 251 + 17 * 2 ^ 192 + 1

/-- Minimum attestation window (`src/state.rs`): the block hash of block `N`
only becomes available at block `N + 10`. -/
def MIN_ATTESTATION_WINDOW : Nat := 10

/-- `AttestationInfo` snapshot fetched from the staking contract.  Field set
of the version used by `src/state.rs` and `src/main.rs` (which also carry
`operational_address` and `attestation_window`; the copy of
`attestation_info.rs` under `src/` is an older revision that passes
`attestation_window` separately — the value is the same). -/
structure AttestationInfo where
  staker_address : Nat
  operational_address : Nat
  stake : Nat
  epoch_id : Nat
  current_epoch_starting_block : Nat
  epoch_len : Nat
  attestation_window : Nat
deriving DecidableEq

/-- The free function `calculate_expected_attestation_block` of
`src/attestation_info.rs` (lines 87-105), parametric in the Poseidon hash
`H`.  `NonZeroFelt::try_from(modulus)` fails exactly when the modulus is
zero, which the translation renders as `none`; the final `try_into::<u64>`
always succeeds because the remainder is below the (u64-sized) modulus. -/
def calculate_expected_attestation_block (H : Nat → Nat → Nat → Nat)
    (info : AttestationInfo) : Option Nat :=
  let hash := H info.stake info.epoch_id info.staker_address % STARK_PRIME
  let modulus := info.epoch_len - info.attestation_window
  if modulus = 0 then
    none
  else
    some (info.current_epoch_starting_block + hash % modulus)

/-- Modelled from the spec: the method form
`AttestationInfo::calculate_expected_attestation_block` used by
`State::from_attestation_info` in `src/state.rs` is missing from `src/`
(only the older free-function variant is present).  Per spec §4.1 the
modulus `epoch_len − attestation_window` must be positive (a configuration
bug otherwise), under which the method returns
`current_epoch_starting_block + (H(stake, epoch_id, staker) mod modulus)`. -/
def AttestationInfo.calculate_expected_attestation_block
    (H : Nat → Nat → Nat → Nat) (info : AttestationInfo) : Nat :=
  info.current_epoch_starting_block +
    (H info.stake info.epoch_id info.staker_address % STARK_PRIME) %
      (info.epoch_len - info.attestation_window)

/-- `TransactionExecutionStatus` of the `starknet` crate, as used by
`src/state.rs` (`execution_result.status()`). -/
inductive TransactionExecutionStatus where
  | Succeeded
  | Reverted
deriving DecidableEq

/-- `TransactionStatus` of the `starknet` crate as consumed by
`State::handle_new_block_header`. -/
inductive TransactionStatus where
  | Received
  | Rejected
  | AcceptedOnL2 (execution_result : TransactionExecutionStatus)
  | AcceptedOnL1 (execution_result : TransactionExecutionStatus)
deriving DecidableEq

/-- `AttestationParams` (`src/state.rs` lines 18-23). -/
structure AttestationParams where
  block_hash : Nat
  start_of_attestation_window : Nat
  end_of_attestation_window : Nat
deriving DecidableEq

/-- `AttestationParams::in_window` (`src/state.rs` lines 26-36). -/
def AttestationParams.in_window (p : AttestationParams) (block_number : Nat) :
    Ordering :=
  if block_number < p.start_of_attestation_window then
    Ordering.lt
  else if block_number ≥ p.end_of_attestation_window then
    Ordering.gt
  else
    Ordering.eq

/-- The state machine's state (`src/state.rs` lines 39-57). -/
inductive State where
  | BeforeBlockToAttest (attestation_info : AttestationInfo)
      (block_to_attest : Nat)
  | Attesting (attestation_info : AttestationInfo)
      (attestation_params : AttestationParams)
  | AttestationSubmitted (attestation_info : AttestationInfo)
      (attestation_params : AttestationParams) (transaction_hash : Nat)
  | WaitingForNextEpoch (attestation_info : AttestationInfo)
deriving DecidableEq

/-- `State::attestation_info` (`src/state.rs` lines 78-91). -/
def State.attestation_info : State → AttestationInfo
  | .BeforeBlockToAttest info _ => info
  | .Attesting info _ => info
  | .AttestationSubmitted info _ _ => info
  | .WaitingForNextEpoch info => info

/-- `State::block_in_current_epoch` (`src/state.rs` lines 93-98). -/
def State.block_in_current_epoch (s : State) (block_number : Nat) : Bool :=
  let info := s.attestation_info
  decide (info.current_epoch_starting_block ≤ block_number ∧
    block_number < info.current_epoch_starting_block + info.epoch_len)

/-- `State::from_attestation_info` (`src/state.rs` lines 60-76); the epoch
gauges it sets are not claimed about and are omitted from the effects. -/
def State.from_attestation_info (H : Nat → Nat → Nat → Nat)
    (info : AttestationInfo) : State :=
  State.BeforeBlockToAttest info (info.calculate_expected_attestation_block H)

/-- Per-invocation effect record: metric counter increments, the
`last_attestation_timestamp_seconds` gauge write, and the RPC calls issued
(`attest`, `attestation_status`, `attestation_done_in_current_epoch`,
`get_attestation_info`, `get_block_hash`). -/
structure Eff where
  submitted_count : Nat
  failure_count : Nat
  confirmed_count : Nat
  missed_epochs_count : Nat
  attest_calls : Nat
  status_queries : Nat
  done_queries : Nat
  info_queries : Nat
  block_hash_queries : Nat
  attestation_gauge_set : Bool
deriving DecidableEq

/-- The all-zero effect record. -/
def Eff.zero : Eff := ⟨0, 0, 0, 0, 0, 0, 0, 0, 0, false⟩

/-- Pointwise accumulation of two effect records. -/
def Eff.add (a b : Eff) : Eff :=
  ⟨a.submitted_count + b.submitted_count,
   a.failure_count + b.failure_count,
   a.confirmed_count + b.confirmed_count,
   a.missed_epochs_count + b.missed_epochs_count,
   a.attest_calls + b.attest_calls,
   a.status_queries + b.status_queries,
   a.done_queries + b.done_queries,
   a.info_queries + b.info_queries,
   a.block_hash_queries + b.block_hash_queries,
   a.attestation_gauge_set || b.attestation_gauge_set⟩

/-- The four metric counters of an effect record, in the order
submitted, failure, confirmed, missed. -/
def Eff.counters (e : Eff) : Nat × Nat × Nat × Nat :=
  (e.submitted_count, e.failure_count, e.confirmed_count,
    e.missed_epochs_count)

/-- One `attestation_status` query. -/
def effStatusQuery : Eff := ⟨0, 0, 0, 0, 0, 1, 0, 0, 0, false⟩

/-- One `attestation_done_in_current_epoch` query. -/
def effDoneQuery : Eff := ⟨0, 0, 0, 0, 0, 0, 1, 0, 0, false⟩

/-- One `get_attestation_info` query. -/
def effInfoQuery : Eff := ⟨0, 0, 0, 0, 0, 0, 0, 1, 0, false⟩

/-- One `get_block_hash` query. -/
def effBlockHashQuery : Eff := ⟨0, 0, 0, 0, 0, 0, 0, 0, 1, false⟩

/-- One `failure_count` increment. -/
def effFailure : Eff := ⟨0, 1, 0, 0, 0, 0, 0, 0, 0, false⟩

/-- The `jsonrpc::Client` trait (`src/jsonrpc.rs`) as a record of pure
response functions: `attest` keyed by (operational_address, block_hash),
`attestation_done_in_current_epoch` by staker address,
`attestation_status` by transaction hash, `get_attestation_info` by
operational address, `get_block_hash` by block number.  `ClientError`
payloads are collapsed to `Unit`. -/
structure Client where
  attest : Nat → Nat → Except Unit Nat
  attestation_done_in_current_epoch : Nat → Except Unit Bool
  attestation_status : Nat → Except Unit TransactionStatus
  get_attestation_info : Nat → Except Unit AttestationInfo
  get_block_hash : Nat → Except Unit Nat
  get_strk_balance : Nat → Except Unit Nat

/-- `State::submit_attestation` (`src/state.rs` lines 351-385): one
`attest` call; on success the timestamp gauge is set and
`submitted_count` is incremented, on failure `failure_count` is
incremented. -/
def submit_attestation (cl : Client) (info : AttestationInfo)
    (params : AttestationParams) : Except Unit Nat × Eff :=
  match cl.attest info.operational_address params.block_hash with
  | .ok transaction_hash =>
      (.ok transaction_hash, ⟨1, 0, 0, 0, 1, 0, 0, 0, 0, true⟩)
  | .error e => (.error e, ⟨0, 1, 0, 0, 1, 0, 0, 0, 0, false⟩)

/-- `State::check_and_submit_attestation` (`src/state.rs` lines 318-349). -/
def check_and_submit_attestation (cl : Client) (info : AttestationInfo)
    (params : AttestationParams) : Except Unit State × Eff :=
  match cl.attestation_done_in_current_epoch info.staker_address with
  | .error e => (.error e, effDoneQuery)
  | .ok true => (.ok (State.WaitingForNextEpoch info), effDoneQuery)
  | .ok false =>
      match submit_attestation cl info params with
      | (.ok transaction_hash, e) =>
          (.ok (State.AttestationSubmitted info params transaction_hash),
            Eff.add effDoneQuery e)
      | (.error _, e) =>
          (.ok (State.Attesting info params), Eff.add effDoneQuery e)

/-- `State::check_and_mark_epoch_as_missed` (`src/state.rs` lines 387-415):
returns the effects only (the caller always moves to
`WaitingForNextEpoch`).  `missed_epochs_count` is incremented when the
query answers `false` or errors (pessimistic default). -/
def check_and_mark_epoch_as_missed (cl : Client) (staker_address : Nat) :
    Eff :=
  match cl.attestation_done_in_current_epoch staker_address with
  | .ok false => ⟨0, 0, 0, 1, 0, 0, 1, 0, 0, false⟩
  | .ok true => effDoneQuery
  | .error _ => ⟨0, 0, 0, 1, 0, 0, 1, 0, 0, false⟩

/-- The per-state dispatch of `State::handle_new_block_header`
(`src/state.rs` lines 150-315), i.e. the body of the `Ok(match state …)`
expression after the epoch-rollover precondition. -/
def dispatch (cl : Client) (block_number block_hash : Nat) :
    State → Except Unit State × Eff
  | .BeforeBlockToAttest info block_to_attest =>
      if block_number < block_to_attest then
        (.ok (State.BeforeBlockToAttest info block_to_attest), Eff.zero)
      else if block_number = block_to_attest then
        (.ok (State.Attesting info
          ⟨block_hash, block_number + MIN_ATTESTATION_WINDOW,
            block_number + info.attestation_window⟩), Eff.zero)
      else
        match cl.get_block_hash block_to_attest with
        | .ok h =>
            (.ok (State.Attesting info
              ⟨h, block_to_attest + MIN_ATTESTATION_WINDOW,
                block_to_attest + info.attestation_window⟩),
              effBlockHashQuery)
        | .error e => (.error e, effBlockHashQuery)
  | .Attesting info params =>
      match params.in_window block_number with
      | .lt => (.ok (State.Attesting info params), Eff.zero)
      | .eq => check_and_submit_attestation cl info params
      | .gt =>
          (.ok (State.WaitingForNextEpoch info),
            check_and_mark_epoch_as_missed cl info.staker_address)
  | .AttestationSubmitted info params transaction_hash =>
      match params.in_window block_number with
      | .gt =>
          (.ok (State.WaitingForNextEpoch info),
            check_and_mark_epoch_as_missed cl info.staker_address)
      | _ =>
          match cl.attestation_status transaction_hash with
          | .error _ =>
              (.ok (State.AttestationSubmitted info params transaction_hash),
                effStatusQuery)
          | .ok .Received =>
              (.ok (State.AttestationSubmitted info params transaction_hash),
                effStatusQuery)
          | .ok .Rejected =>
              ((check_and_submit_attestation cl info params).1,
                Eff.add (Eff.add effStatusQuery effFailure)
                  (check_and_submit_attestation cl info params).2)
          | .ok (.AcceptedOnL2 execution_result) =>
              if execution_result = .Reverted then
                ((check_and_submit_attestation cl info params).1,
                  Eff.add (Eff.add effStatusQuery effFailure)
                    (check_and_submit_attestation cl info params).2)
              else
                (.ok (State.WaitingForNextEpoch info),
                  ⟨0, 0, 1, 0, 0, 1, 0, 0, 0, false⟩)
          | .ok (.AcceptedOnL1 execution_result) =>
              if execution_result = .Reverted then
                ((check_and_submit_attestation cl info params).1,
                  Eff.add (Eff.add effStatusQuery effFailure)
                    (check_and_submit_attestation cl info params).2)
              else
                (.ok (State.WaitingForNextEpoch info),
                  ⟨0, 0, 1, 0, 0, 1, 0, 0, 0, false⟩)
  | .WaitingForNextEpoch info =>
      (.ok (State.WaitingForNextEpoch info), Eff.zero)

/-- `State::handle_new_block_header` (`src/state.rs` lines 100-316):
the epoch-rollover precondition (re-fetch `AttestationInfo` and rebuild
the state when the header is outside the current epoch; errors of that
fetch propagate), followed by the per-state dispatch.  The
`get_strk_balance` refresh on rollover only feeds a gauge the claims do
not mention and is omitted. -/
def handle_new_block_header (H : Nat → Nat → Nat → Nat) (cl : Client)
    (operational_address block_number block_hash : Nat) (s : State) :
    Except Unit State × Eff :=
  if s.block_in_current_epoch block_number then
    dispatch cl block_number block_hash s
  else
    match cl.get_attestation_info operational_address with
    | .error e => (.error e, effInfoQuery)
    | .ok info =>
        ((dispatch cl block_number block_hash
            (State.from_attestation_info H info)).1,
          Eff.add effInfoQuery
            (dispatch cl block_number block_hash
              (State.from_attestation_info H info)).2)

/-- The attestation event stream payload (`src/events.rs`). -/
inductive AttestationEvent where
  | StakerAttestationSuccessful (staker_address : Nat) (epoch_id : Nat)
deriving DecidableEq

/-- `State::handle_attestation_successful_event` and
`State::handle_new_event` (`src/state.rs` lines 417-470). -/
def handle_new_event (s : State) (event : AttestationEvent) : State × Eff :=
  match event with
  | .StakerAttestationSuccessful staker_address epoch_id =>
      match s with
      | .Attesting info params =>
          if info.staker_address = staker_address ∧ info.epoch_id = epoch_id
          then
            (State.WaitingForNextEpoch info, ⟨0, 0, 1, 0, 0, 0, 0, 0, 0, false⟩)
          else
            (State.Attesting info params, Eff.zero)
      | .AttestationSubmitted info params transaction_hash =>
          if info.staker_address = staker_address ∧ info.epoch_id = epoch_id
          then
            (State.WaitingForNextEpoch info, ⟨0, 0, 1, 0, 0, 0, 0, 0, 0, false⟩)
          else
            (State.AttestationSubmitted info params transaction_hash,
              Eff.zero)
      | s => (s, Eff.zero)

/-- Spec §4.5.2, stated in the spec's own words: the successful-attestation
event moves the machine to `WaitingForNextEpoch` and bumps
`confirmed_count` exactly when the state is `Attesting` or
`AttestationSubmitted` and both the staker address and the epoch id
match; otherwise the state is unchanged and no counter moves. -/
def event_matches_spec (s : State) (staker_address epoch_id : Nat) : Bool :=
  match s with
  | .Attesting info _ =>
      decide (info.staker_address = staker_address ∧ info.epoch_id = epoch_id)
  | .AttestationSubmitted info _ _ =>
      decide (info.staker_address = staker_address ∧ info.epoch_id = epoch_id)
  | _ => false

/-- Spec §4.5.2 as a transition function (the spec-side of claim C5). -/
def spec_event_transition (s : State) (staker_address epoch_id : Nat) :
    State × Eff :=
  if event_matches_spec s staker_address epoch_id then
    (State.WaitingForNextEpoch s.attestation_info,
      ⟨0, 0, 1, 0, 0, 0, 0, 0, 0, false⟩)
  else
    (s, Eff.zero)

/-- The supervisor's header arm (`src/main.rs` lines 299-320): on a
handling error the previous state is restored. -/
def supervisor_handle_header (H : Nat → Nat → Nat → Nat) (cl : Client)
    (operational_address block_number block_hash : Nat) (s : State) :
    State :=
  match handle_new_block_header H cl operational_address block_number
      block_hash s with
  | (.ok s', _) => s'
  | (.error _, _) => s

/-- The supervisor's reorg arm (`src/main.rs` lines 341-369): re-fetch the
attestation info and rebuild the state via `from_attestation_info`; if the
fetch fails the old state is kept (and the notification re-queued, which
the claims do not exercise). -/
def process_reorg (H : Nat → Nat → Nat → Nat) (cl : Client)
    (operational_address : Nat) (s : State) : State :=
  match cl.get_attestation_info operational_address with
  | .ok info => State.from_attestation_info H info
  | .error _ => s

/-- Decidable equality for the `Except` results of the state machine. -/
instance {ε α : Type} [DecidableEq ε] [DecidableEq α] :
    DecidableEq (Except ε α) := fun a b =>
  match a, b with
  | .error e, .error f =>
      if h : e = f then .isTrue (h ▸ rfl)
      else .isFalse (fun c => h (Except.error.inj c))
  | .ok x, .ok y =>
      if h : x = y then .isTrue (h ▸ rfl)
      else .isFalse (fun c => h (Except.ok.inj c))
  | .error _, .ok _ => .isFalse (fun c => Except.noConfusion c)
  | .ok _, .error _ => .isFalse (fun c => Except.noConfusion c)

/-- A constant stand-in for the Poseidon hash, for concrete scenarios. -/
def Hconst (k : Nat) : Nat → Nat → Nat → Nat := fun _ _ _ => k

/-- Concrete epoch-1 snapshot: epoch blocks `[0, 40)`, window length 20. -/
def infoA : AttestationInfo := ⟨7, 8, 1000, 1, 0, 40, 20⟩

/-- Concrete epoch-2 snapshot: epoch blocks `[40, 80)`, window length 20. -/
def infoB : AttestationInfo := ⟨7, 8, 1000, 2, 40, 40, 20⟩

/-- Concrete attestation params: window `[15, 25)` for block-to-attest 5. -/
def pA : AttestationParams := ⟨77, 15, 25⟩

/-- Client fixture with constant responses. -/
def mkClient (att : Except Unit Nat) (done : Except Unit Bool)
    (st : Except Unit TransactionStatus) (inf : Except Unit AttestationInfo)
    (gbh : Except Unit Nat) : Client :=
  ⟨fun _ _ => att, fun _ => done, fun _ => st, fun _ => inf, fun _ => gbh,
    fun _ => .ok 0⟩

/-- Client whose attestation transaction gets accepted and succeeds. -/
def clAccepted : Client :=
  mkClient (.ok 99) (.ok false) (.ok (.AcceptedOnL2 .Succeeded)) (.ok infoB)
    (.ok 77)

/-- Client whose attestation transaction is rejected. -/
def clRejected : Client :=
  mkClient (.ok 99) (.ok false) (.ok .Rejected) (.ok infoB) (.ok 77)

/-- Client whose attestation transaction stays in the mempool. -/
def clPending : Client :=
  mkClient (.ok 99) (.ok false) (.ok .Received) (.ok infoB) (.ok 77)

/-- Client whose `get_attestation_info` fails. -/
def clNoInfo : Client :=
  mkClient (.ok 99) (.ok false) (.ok .Received) (.error ()) (.ok 77)

/-- Claim C1: for every `AttestationInfo` whose `epoch_len` exceeds
`attestation_window`, `calculate_expected_attestation_block` returns
`current_epoch_starting_block + r` where `r` is the remainder of the
Poseidon hash `H(stake, epoch_id, staker_address)` modulo
`epoch_len − attestation_window`.  Determinism is definitional: the
function is pure, so two runs on the same `AttestationInfo` (with the
same hash function) are the same term. -/
theorem expected_attestation_block_eq_hash_mod
    (H : Nat → Nat → Nat → Nat) (info : AttestationInfo)
    (hlt : info.attestation_window < info.epoch_len) :
    calculate_expected_attestation_block H info =
      some (info.current_epoch_starting_block +
        (H info.stake info.epoch_id info.staker_address % STARK_PRIME) %
          (info.epoch_len - info.attestation_window)) := by
  have h : info.epoch_len - info.attestation_window ≠ 0 := by omega
  simp [calculate_expected_attestation_block, h]

/-- Witness for C1 at the concrete epoch-1 snapshot with a constant hash. -/
theorem expected_attestation_block_eq_hash_mod_witness :
    infoA.attestation_window < infoA.epoch_len ∧
      calculate_expected_attestation_block (Hconst 5) infoA =
        some (infoA.current_epoch_starting_block +
          (Hconst 5 infoA.stake infoA.epoch_id infoA.staker_address %
              STARK_PRIME) %
            (infoA.epoch_len - infoA.attestation_window)) :=
  ⟨by decide,
    expected_attestation_block_eq_hash_mod (Hconst 5) infoA (by decide)⟩

/-- Claim C6: for every `AttestationParams` with
`start_of_attestation_window ≤ end_of_attestation_window` and every block
number `n`, `in_window n` is `lt` iff `n < start`, `eq` iff
`start ≤ n < end`, and `gt` iff `n ≥ end` — the half-open interval
`[start, end)`. -/
theorem in_window_characterization (p : AttestationParams) (n : Nat)
    (hle : p.start_of_attestation_window ≤ p.end_of_attestation_window) :
    (p.in_window n = .lt ↔ n < p.start_of_attestation_window) ∧
      (p.in_window n = .eq ↔
        p.start_of_attestation_window ≤ n ∧
          n < p.end_of_attestation_window) ∧
      (p.in_window n = .gt ↔ p.end_of_attestation_window ≤ n) := by
  unfold AttestationParams.in_window
  split
  · rename_i h
    refine ⟨by simp [h], by simp; omega, by simp; omega⟩
  · rename_i h
    split
    · rename_i h2
      refine ⟨by simp; omega, by simp; omega, by simp; omega⟩
    · rename_i h2
      refine ⟨by simp; omega, by simp; omega, by simp; omega⟩

/-- Witness for C6 on the window `[15, 25)` at block 16. -/
theorem in_window_characterization_witness :
    pA.start_of_attestation_window ≤ pA.end_of_attestation_window ∧
      ((pA.in_window 16 = .lt ↔ 16 < pA.start_of_attestation_window) ∧
        (pA.in_window 16 = .eq ↔
          pA.start_of_attestation_window ≤ 16 ∧
            16 < pA.end_of_attestation_window) ∧
        (pA.in_window 16 = .gt ↔ pA.end_of_attestation_window ≤ 16)) :=
  ⟨by decide, in_window_characterization pA 16 (by decide)⟩

/-- Claim C5: `handle_new_event` on `StakerAttestationSuccessful{s, e}`
moves to `WaitingForNextEpoch` and increments `confirmed_count` exactly
when the state is `Attesting` or `AttestationSubmitted` with matching
staker address and epoch id; in every other case the state is returned
unchanged with no counter changes.  It is a total function, so it never
fails. -/
theorem handle_new_event_spec (s : State) (staker_address epoch_id : Nat) :
    handle_new_event s
        (.StakerAttestationSuccessful staker_address epoch_id) =
      spec_event_transition s staker_address epoch_id := by
  cases s with
  | Attesting info params =>
      by_cases h : info.staker_address = staker_address ∧
          info.epoch_id = epoch_id <;>
        simp [handle_new_event, spec_event_transition, event_matches_spec,
          State.attestation_info, h]
  | AttestationSubmitted info params transaction_hash =>
      by_cases h : info.staker_address = staker_address ∧
          info.epoch_id = epoch_id <;>
        simp [handle_new_event, spec_event_transition, event_matches_spec,
          State.attestation_info, h]
  | BeforeBlockToAttest info block_to_attest =>
      simp [handle_new_event, spec_event_transition, event_matches_spec]
  | WaitingForNextEpoch info =>
      simp [handle_new_event, spec_event_transition, event_matches_spec]

/-- Claim C3: `check_and_submit_attestation` first queries
`attestation_done_in_current_epoch(staker_address)`: a query error is
propagated; `true` yields `WaitingForNextEpoch` without any `attest`
call; `false` triggers `attest(operational_address, …, block_hash)` —
on success `submitted_count` is incremented, the
`last_attestation_timestamp_seconds` gauge is set and the result is
`AttestationSubmitted` with the transaction hash; on `attest` failure
`failure_count` is incremented and the result is `Attesting` with the
same params. -/
theorem check_and_submit_attestation_spec (cl : Client)
    (info : AttestationInfo) (params : AttestationParams) :
    match cl.attestation_done_in_current_epoch info.staker_address with
    | .error e =>
        check_and_submit_attestation cl info params = (.error e, effDoneQuery)
    | .ok true =>
        check_and_submit_attestation cl info params =
            (.ok (State.WaitingForNextEpoch info), effDoneQuery) ∧
          (check_and_submit_attestation cl info params).2.attest_calls = 0
    | .ok false =>
        match cl.attest info.operational_address params.block_hash with
        | .ok transaction_hash =>
            check_and_submit_attestation cl info params =
              (.ok (State.AttestationSubmitted info params transaction_hash),
                ⟨1, 0, 0, 0, 1, 0, 1, 0, 0, true⟩)
        | .error _ =>
            check_and_submit_attestation cl info params =
              (.ok (State.Attesting info params),
                ⟨0, 1, 0, 0, 1, 0, 1, 0, 0, false⟩) := by
  rcases hd : cl.attestation_done_in_current_epoch info.staker_address with
    e | b
  · simp [check_and_submit_attestation, hd]
  · cases b
    · rcases ha : cl.attest info.operational_address params.block_hash with
        e | th
      · simp [check_and_submit_attestation, submit_attestation, hd, ha,
          Eff.add, effDoneQuery]
      · simp [check_and_submit_attestation, submit_attestation, hd, ha,
          Eff.add, effDoneQuery]
    · simp [check_and_submit_attestation, hd, effDoneQuery]

/-- The dispatch from `BeforeBlockToAttest` never issues an `attest` call:
it either waits or (possibly after a `get_block_hash` fetch) enters
`Attesting`. -/
theorem dispatch_before_no_attest (cl : Client) (n bh : Nat)
    (info : AttestationInfo) (b : Nat) :
    (dispatch cl n bh (.BeforeBlockToAttest info b)).2.attest_calls = 0 := by
  unfold dispatch
  by_cases h1 : n < b
  · simp [h1, Eff.zero]
  · by_cases h2 : n = b
    · simp [h1, h2, Eff.zero]
    · rcases hg : cl.get_block_hash b with e | h <;>
        simp [h1, h2, hg, effBlockHashQuery]

/-- `check_and_mark_epoch_as_missed` never issues an `attest` call. -/
theorem mark_missed_no_attest (cl : Client) (sa : Nat) :
    (check_and_mark_epoch_as_missed cl sa).attest_calls = 0 := by
  unfold check_and_mark_epoch_as_missed
  rcases h : cl.attestation_done_in_current_epoch sa with e | b
  · simp [h]
  · cases b <;> simp [h, effDoneQuery]

/-- Claim C4: a `handle_new_block_header` step from `AttestationSubmitted`
issues an `attest` call only if the status query on the held transaction
hash returned `Rejected`, or `AcceptedOnL1`/`AcceptedOnL2` with a
`Reverted` execution result; in particular `Received`, a status-query
error, and a successfully accepted status never lead to an `attest` call
(at most one in-flight attestation transaction). -/
theorem no_second_attest_unless_terminal (H : Nat → Nat → Nat → Nat)
    (cl : Client) (op n bh : Nat) (info : AttestationInfo)
    (params : AttestationParams) (th : Nat)
    (hattest : (handle_new_block_header H cl op n bh
        (.AttestationSubmitted info params th)).2.attest_calls ≠ 0) :
    cl.attestation_status th = .ok .Rejected ∨
      cl.attestation_status th = .ok (.AcceptedOnL2 .Reverted) ∨
      cl.attestation_status th = .ok (.AcceptedOnL1 .Reverted) := by
  by_cases hin : (State.AttestationSubmitted info params th).block_in_current_epoch
      n
  · simp only [handle_new_block_header, hin, if_true] at hattest
    rcases hw : params.in_window n with _ | _ | _ <;>
      simp only [dispatch, hw] at hattest
    · rcases hs : cl.attestation_status th with e | st <;>
        simp only [hs] at hattest
      · simp [effStatusQuery] at hattest
      · cases st with
        | Received => simp [effStatusQuery] at hattest
        | Rejected => exact Or.inl rfl
        | AcceptedOnL2 er =>
            cases er with
            | Succeeded => simp at hattest
            | Reverted => exact Or.inr (Or.inl rfl)
        | AcceptedOnL1 er =>
            cases er with
            | Succeeded => simp at hattest
            | Reverted => exact Or.inr (Or.inr rfl)
    · rcases hs : cl.attestation_status th with e | st <;>
        simp only [hs] at hattest
      · simp [effStatusQuery] at hattest
      · cases st with
        | Received => simp [effStatusQuery] at hattest
        | Rejected => exact Or.inl rfl
        | AcceptedOnL2 er =>
            cases er with
            | Succeeded => simp at hattest
            | Reverted => exact Or.inr (Or.inl rfl)
        | AcceptedOnL1 er =>
            cases er with
            | Succeeded => simp at hattest
            | Reverted => exact Or.inr (Or.inr rfl)
    · exact absurd (mark_missed_no_attest cl info.staker_address) hattest
  · simp only [handle_new_block_header, hin, if_false, Bool.false_eq_true]
      at hattest
    rcases hi : cl.get_attestation_info op with e | info' <;>
      simp only [hi] at hattest
    · simp [effInfoQuery] at hattest
    · simp [Eff.add, effInfoQuery, State.from_attestation_info,
        dispatch_before_no_attest] at hattest

/-- Witness for C4: an in-window header over a rejected transaction does
resubmit, and the status indeed reads `Rejected`. -/
theorem no_second_attest_unless_terminal_witness :
    (handle_new_block_header (Hconst 5) clRejected 8 16 0
        (.AttestationSubmitted infoA pA 99)).2.attest_calls ≠ 0 ∧
      (clRejected.attestation_status 99 = .ok .Rejected ∨
        clRejected.attestation_status 99 = .ok (.AcceptedOnL2 .Reverted) ∨
        clRejected.attestation_status 99 = .ok (.AcceptedOnL1 .Reverted)) :=
  ⟨by decide,
    no_second_attest_unless_terminal (Hconst 5) clRejected 8 16 0 infoA pA 99
      (by decide)⟩

/-- Claim C7 (amended: header within the state's current epoch): when the
window has closed (`in_window(n) = Greater`) in `Attesting` or
`AttestationSubmitted`, the machine queries
`is_attestation_done_in_current_epoch` exactly once, increments
`missed_epochs_count` exactly when the query returns `false` or errors,
and moves to `WaitingForNextEpoch`. -/
theorem window_closed_marks_missed (H : Nat → Nat → Nat → Nat) (cl : Client)
    (op n bh : Nat) (info : AttestationInfo) (params : AttestationParams)
    (th : Nat)
    (hin : info.current_epoch_starting_block ≤ n ∧
      n < info.current_epoch_starting_block + info.epoch_len)
    (hw : params.in_window n = .gt) :
    handle_new_block_header H cl op n bh (.Attesting info params) =
        (.ok (State.WaitingForNextEpoch info),
          check_and_mark_epoch_as_missed cl info.staker_address) ∧
      handle_new_block_header H cl op n bh
          (.AttestationSubmitted info params th) =
        (.ok (State.WaitingForNextEpoch info),
          check_and_mark_epoch_as_missed cl info.staker_address) ∧
      (check_and_mark_epoch_as_missed cl info.staker_address).done_queries
        = 1 ∧
      (check_and_mark_epoch_as_missed cl
          info.staker_address).missed_epochs_count =
        (match cl.attestation_done_in_current_epoch info.staker_address with
          | .ok true => 0
          | _ => 1) := by
  have hep1 : (State.Attesting info params).block_in_current_epoch n
      = true := by
    simp [State.block_in_current_epoch, State.attestation_info]
    exact hin
  have hep2 : (State.AttestationSubmitted info params th).block_in_current_epoch
      n = true := by
    simp [State.block_in_current_epoch, State.attestation_info]
    exact hin
  refine ⟨?_, ?_, ?_, ?_⟩
  · simp [handle_new_block_header, hep1, dispatch, hw]
  · simp [handle_new_block_header, hep2, dispatch, hw]
  · unfold check_and_mark_epoch_as_missed
    rcases h : cl.attestation_done_in_current_epoch info.staker_address
      with e | b
    · simp [h]
    · cases b <;> simp [h, effDoneQuery]
  · unfold check_and_mark_epoch_as_missed
    rcases h : cl.attestation_done_in_current_epoch info.staker_address
      with e | b
    · simp [h]
    · cases b <;> simp [h, effDoneQuery]

/-- Witness for C7 at a closed window (block 30, window `[15, 25)`) with a
done-query answering `false`. -/
theorem window_closed_marks_missed_witness :
    (infoA.current_epoch_starting_block ≤ 30 ∧
      30 < infoA.current_epoch_starting_block + infoA.epoch_len) ∧
    pA.in_window 30 = .gt ∧
    (handle_new_block_header (Hconst 5) clAccepted 8 30 0
        (.Attesting infoA pA) =
        (.ok (State.WaitingForNextEpoch infoA),
          check_and_mark_epoch_as_missed clAccepted infoA.staker_address) ∧
      handle_new_block_header (Hconst 5) clAccepted 8 30 0
          (.AttestationSubmitted infoA pA 99) =
        (.ok (State.WaitingForNextEpoch infoA),
          check_and_mark_epoch_as_missed clAccepted infoA.staker_address) ∧
      (check_and_mark_epoch_as_missed clAccepted
          infoA.staker_address).done_queries = 1 ∧
      (check_and_mark_epoch_as_missed clAccepted
          infoA.staker_address).missed_epochs_count =
        (match clAccepted.attestation_done_in_current_epoch
            infoA.staker_address with
          | .ok true => 0
          | _ => 1)) :=
  ⟨by decide, by decide,
    window_closed_marks_missed (Hconst 5) clAccepted 8 30 0 infoA pA 99
      (by decide) (by decide)⟩

/-- Counterexample for C7 as stated: a header past the window but outside
the current epoch triggers the epoch-rollover precondition instead — no
`is_attestation_done_in_current_epoch` query is made and the resulting
state is not `WaitingForNextEpoch` (here the rollover fetch fails, so the
step errors). -/
theorem window_closed_out_of_epoch_cex :
    pA.in_window 100 = .gt ∧
      (handle_new_block_header (Hconst 5) clNoInfo 8 100 0
          (.Attesting infoA pA)).2.done_queries = 0 ∧
      (handle_new_block_header (Hconst 5) clNoInfo 8 100 0
          (.Attesting infoA pA)).1 ≠
        .ok (State.WaitingForNextEpoch infoA) := by decide

/-- Claim C8 (amended: header within the state's current epoch): in
`BeforeBlockToAttest{block_to_attest}`, a header with
`n > block_to_attest` triggers a `get_block_hash(block_to_attest)` call;
on success the machine enters `Attesting` with the window anchored at
`block_to_attest` (not at `n`); on failure the error is propagated and
the supervisor keeps the previous state. -/
theorem late_start_fetches_block_hash (H : Nat → Nat → Nat → Nat)
    (cl : Client) (op n bh : Nat) (info : AttestationInfo)
    (block_to_attest : Nat)
    (hin : info.current_epoch_starting_block ≤ n ∧
      n < info.current_epoch_starting_block + info.epoch_len)
    (hgt : block_to_attest < n) :
    match cl.get_block_hash block_to_attest with
    | .ok h =>
        handle_new_block_header H cl op n bh
            (.BeforeBlockToAttest info block_to_attest) =
          (.ok (State.Attesting info
            ⟨h, block_to_attest + MIN_ATTESTATION_WINDOW,
              block_to_attest + info.attestation_window⟩),
            effBlockHashQuery)
    | .error e =>
        (handle_new_block_header H cl op n bh
            (.BeforeBlockToAttest info block_to_attest)).1 = .error e ∧
          supervisor_handle_header H cl op n bh
              (.BeforeBlockToAttest info block_to_attest) =
            .BeforeBlockToAttest info block_to_attest := by
  have hep : (State.BeforeBlockToAttest info block_to_attest).block_in_current_epoch
      n = true := by
    simp [State.block_in_current_epoch, State.attestation_info]
    exact hin
  have h1 : ¬ n < block_to_attest := by omega
  have h2 : ¬ n = block_to_attest := by omega
  rcases hg : cl.get_block_hash block_to_attest with e | h
  · simp only [hg]
    constructor
    · simp [handle_new_block_header, hep, dispatch, h1, h2, hg]
    · simp [supervisor_handle_header, handle_new_block_header, hep,
        dispatch, h1, h2, hg]
  · simp only [hg]
    simp [handle_new_block_header, hep, dispatch, h1, h2, hg]

/-- Witness for C8: starting late at block 7 with block-to-attest 5
fetches the hash of block 5 and anchors the window `[15, 25)` at 5. -/
theorem late_start_fetches_block_hash_witness :
    (infoA.current_epoch_starting_block ≤ 7 ∧
      7 < infoA.current_epoch_starting_block + infoA.epoch_len) ∧
    (5 : Nat) < 7 ∧
    handle_new_block_header (Hconst 5) clPending 8 7 0
        (.BeforeBlockToAttest infoA 5) =
      (.ok (State.Attesting infoA
        ⟨77, 5 + MIN_ATTESTATION_WINDOW, 5 + infoA.attestation_window⟩),
        effBlockHashQuery) :=
  ⟨by decide, by decide,
    late_start_fetches_block_hash (Hconst 5) clPending 8 7 0 infoA 5
      (by decide) (by decide)⟩

/-- Counterexample for C8 as stated: a header past `block_to_attest` but
outside the current epoch rolls the epoch over instead — no
`get_block_hash` call for the held `block_to_attest` is made and the new
state is `BeforeBlockToAttest` for the freshly fetched epoch, not
`Attesting` anchored at the old `block_to_attest`. -/
theorem late_start_out_of_epoch_cex :
    (5 : Nat) < 50 ∧
      (handle_new_block_header (Hconst 15) clPending 8 50 0
          (.BeforeBlockToAttest infoA 5)).2.block_hash_queries = 0 ∧
      (handle_new_block_header (Hconst 15) clPending 8 50 0
          (.BeforeBlockToAttest infoA 5)).1 =
        .ok (State.BeforeBlockToAttest infoB 55) := by decide

/-- Claim C2 (amended: header within the state's current epoch): from
`AttestationSubmitted{params, tx_hash}`, a header with
`in_window(n) ∈ {Less, Equal}` queries `attestation_status(tx_hash)` and
dispatches: query error or `Received` stays with the same params and
transaction hash and no counter changes; `Rejected` or an accepted status
with a `Reverted` execution result increments `failure_count` and runs
`check_and_submit_attestation` (immediate retry); an accepted status with
`Succeeded` execution increments `confirmed_count` and yields
`WaitingForNextEpoch`. -/
theorem attestation_submitted_status_dispatch (H : Nat → Nat → Nat → Nat)
    (cl : Client) (op n bh : Nat) (info : AttestationInfo)
    (params : AttestationParams) (th : Nat)
    (hin : info.current_epoch_starting_block ≤ n ∧
      n < info.current_epoch_starting_block + info.epoch_len)
    (hw : params.in_window n ≠ .gt) :
    match cl.attestation_status th with
    | .error _ =>
        handle_new_block_header H cl op n bh
            (.AttestationSubmitted info params th) =
          (.ok (State.AttestationSubmitted info params th), effStatusQuery)
    | .ok .Received =>
        handle_new_block_header H cl op n bh
            (.AttestationSubmitted info params th) =
          (.ok (State.AttestationSubmitted info params th), effStatusQuery)
    | .ok .Rejected =>
        handle_new_block_header H cl op n bh
            (.AttestationSubmitted info params th) =
          ((check_and_submit_attestation cl info params).1,
            Eff.add (Eff.add effStatusQuery effFailure)
              (check_and_submit_attestation cl info params).2)
    | .ok (.AcceptedOnL2 .Reverted) =>
        handle_new_block_header H cl op n bh
            (.AttestationSubmitted info params th) =
          ((check_and_submit_attestation cl info params).1,
            Eff.add (Eff.add effStatusQuery effFailure)
              (check_and_submit_attestation cl info params).2)
    | .ok (.AcceptedOnL1 .Reverted) =>
        handle_new_block_header H cl op n bh
            (.AttestationSubmitted info params th) =
          ((check_and_submit_attestation cl info params).1,
            Eff.add (Eff.add effStatusQuery effFailure)
              (check_and_submit_attestation cl info params).2)
    | .ok (.AcceptedOnL2 .Succeeded) =>
        handle_new_block_header H cl op n bh
            (.AttestationSubmitted info params th) =
          (.ok (State.WaitingForNextEpoch info),
            ⟨0, 0, 1, 0, 0, 1, 0, 0, 0, false⟩)
    | .ok (.AcceptedOnL1 .Succeeded) =>
        handle_new_block_header H cl op n bh
            (.AttestationSubmitted info params th) =
          (.ok (State.WaitingForNextEpoch info),
            ⟨0, 0, 1, 0, 0, 1, 0, 0, 0, false⟩) := by
  have hep : (State.AttestationSubmitted info params th).block_in_current_epoch
      n = true := by
    simp [State.block_in_current_epoch, State.attestation_info]
    exact hin
  rcases hwo : params.in_window n with _ | _ | _
  · rcases hs : cl.attestation_status th with e | st
    · simp [handle_new_block_header, hep, dispatch, hwo, hs]
    · cases st with
      | Received => simp [handle_new_block_header, hep, dispatch, hwo, hs]
      | Rejected => simp [handle_new_block_header, hep, dispatch, hwo, hs]
      | AcceptedOnL2 er =>
          cases er <;> simp [handle_new_block_header, hep, dispatch, hwo, hs]
      | AcceptedOnL1 er =>
          cases er <;> simp [handle_new_block_header, hep, dispatch, hwo, hs]
  · rcases hs : cl.attestation_status th with e | st
    · simp [handle_new_block_header, hep, dispatch, hwo, hs]
    · cases st with
      | Received => simp [handle_new_block_header, hep, dispatch, hwo, hs]
      | Rejected => simp [handle_new_block_header, hep, dispatch, hwo, hs]
      | AcceptedOnL2 er =>
          cases er <;> simp [handle_new_block_header, hep, dispatch, hwo, hs]
      | AcceptedOnL1 er =>
          cases er <;> simp [handle_new_block_header, hep, dispatch, hwo, hs]
  · exact absurd hwo hw

/-- Witness for C2 on a pending (`Received`) transaction at in-window
block 16. -/
theorem attestation_submitted_status_dispatch_witness :
    (infoA.current_epoch_starting_block ≤ 16 ∧
      16 < infoA.current_epoch_starting_block + infoA.epoch_len) ∧
    pA.in_window 16 ≠ .gt ∧
    handle_new_block_header (Hconst 5) clPending 8 16 0
        (.AttestationSubmitted infoA pA 99) =
      (.ok (State.AttestationSubmitted infoA pA 99), effStatusQuery) :=
  ⟨by decide, by decide,
    attestation_submitted_status_dispatch (Hconst 5) clPending 8 16 0 infoA
      pA 99 (by decide) (by decide)⟩

/-- Counterexample for C2 as stated: with `in_window(n) = Less` but `n`
outside the current epoch, the rollover precondition fires first — no
`attestation_status` query happens and the state is rebuilt for the new
epoch instead of staying `AttestationSubmitted` (here the status would
read `Received`, for which the claim predicts an unchanged state). -/
theorem attestation_submitted_out_of_epoch_cex :
    AttestationParams.in_window ⟨77, 115, 125⟩ 50 = .lt ∧
      (handle_new_block_header (Hconst 15) clPending 8 50 0
          (.AttestationSubmitted infoA ⟨77, 115, 125⟩ 99)).2.status_queries
        = 0 ∧
      (handle_new_block_header (Hconst 15) clPending 8 50 0
          (.AttestationSubmitted infoA ⟨77, 115, 125⟩ 99)).1 =
        .ok (State.BeforeBlockToAttest infoB 55) := by decide

/-- The dispatch from `BeforeBlockToAttest` never issues a
`get_attestation_info` call. -/
theorem dispatch_before_no_info (cl : Client) (n bh : Nat)
    (info : AttestationInfo) (b : Nat) :
    (dispatch cl n bh (.BeforeBlockToAttest info b)).2.info_queries = 0 := by
  unfold dispatch
  by_cases h1 : n < b
  · simp [h1, Eff.zero]
  · by_cases h2 : n = b
    · simp [h1, h2, Eff.zero]
    · rcases hg : cl.get_block_hash b with e | h <;>
        simp [h1, h2, hg, effBlockHashQuery]

/-- Claim C10 (amended): after the supervisor processes a reorg
notification by rebuilding the state via `from_attestation_info` from a
freshly fetched `AttestationInfo`, the next header causes a
`get_attestation_info` call if and only if its block number lies outside
the rebuilt state's current epoch. -/
theorem header_after_reorg_info_query_iff (H : Nat → Nat → Nat → Nat)
    (cl : Client) (op n bh : Nat) (s : State) (info : AttestationInfo)
    (hok : cl.get_attestation_info op = .ok info) :
    (handle_new_block_header H cl op n bh
        (process_reorg H cl op s)).2.info_queries =
      if (State.from_attestation_info H info).block_in_current_epoch n then
        0
      else
        1 := by
  have hpr : process_reorg H cl op s = State.from_attestation_info H info := by
    simp [process_reorg, hok]
  rw [hpr]
  by_cases hc : (State.from_attestation_info H info).block_in_current_epoch n
  · simp only [handle_new_block_header, hc, if_true]
    simp only [State.from_attestation_info] at hc ⊢
    simp [dispatch_before_no_info, hc]
  · simp only [Bool.not_eq_true] at hc
    unfold handle_new_block_header
    rw [hc]
    simp only [Bool.false_eq_true, if_false, hok]
    simp [Eff.add, effInfoQuery, State.from_attestation_info,
      dispatch_before_no_info]

/-- Witness for C10: a post-reorg header outside the rebuilt epoch does
trigger the info refetch. -/
theorem header_after_reorg_info_query_iff_witness :
    clPending.get_attestation_info 8 = .ok infoB ∧
      (handle_new_block_header (Hconst 15) clPending 8 100 0
          (process_reorg (Hconst 15) clPending 8
            (.WaitingForNextEpoch infoA))).2.info_queries =
        if (State.from_attestation_info (Hconst 15) infoB)
            |>.block_in_current_epoch 100 then
          0
        else
          1 :=
  ⟨rfl,
    header_after_reorg_info_query_iff (Hconst 15) clPending 8 100 0
      (.WaitingForNextEpoch infoA) infoB rfl⟩

/-- Counterexample for C10 as stated: after a reorg is processed, a next
header that lies inside the rebuilt epoch (block 45 in epoch `[40, 80)`)
causes no `get_attestation_info` call at all. -/
theorem header_after_reorg_no_info_query_cex :
    (handle_new_block_header (Hconst 15) clPending 8 45 0
        (process_reorg (Hconst 15) clPending 8
          (.WaitingForNextEpoch infoA))).2.info_queries = 0 := by decide

/-- A header inside the current epoch skips the rollover precondition. -/
theorem handle_in_epoch (H : Nat → Nat → Nat → Nat) (cl : Client)
    (op n bh : Nat) (s : State) (h : s.block_in_current_epoch n = true) :
    handle_new_block_header H cl op n bh s = dispatch cl n bh s := by
  simp [handle_new_block_header, h]

/-- Replay-safety condition for claim C9: the header lies in the state's
current epoch and does not trigger an attestation submission attempt —
the state is `WaitingForNextEpoch`; or `BeforeBlockToAttest` with
`n ≤ block_to_attest`; or `Attesting` with `in_window(n) ≠ Equal`; or
`AttestationSubmitted` whose window has closed or whose status query
returns an error, `Received`, or an accepted status with `Succeeded`
execution. -/
def replay_safe (cl : Client) (block_number : Nat) : State → Bool
  | .BeforeBlockToAttest info b =>
      (State.BeforeBlockToAttest info b).block_in_current_epoch block_number
        && decide (block_number ≤ b)
  | .Attesting info params =>
      (State.Attesting info params).block_in_current_epoch block_number
        && (match params.in_window block_number with
            | .eq => false
            | _ => true)
  | .AttestationSubmitted info params th =>
      (State.AttestationSubmitted info params th).block_in_current_epoch
          block_number
        && (match params.in_window block_number with
            | .gt => true
            | _ =>
              match cl.attestation_status th with
              | .error _ => true
              | .ok .Received => true
              | .ok (.AcceptedOnL2 .Succeeded) => true
              | .ok (.AcceptedOnL1 .Succeeded) => true
              | _ => false)
  | .WaitingForNextEpoch info =>
      (State.WaitingForNextEpoch info).block_in_current_epoch block_number

/-- Claim C9 (amended: replay-safe configurations): replaying the same
header twice yields the same state and the same counter values as
applying it once, provided the header lies in the state's current epoch
and does not trigger an attestation submission attempt (`replay_safe`).
In general replay is not a no-op: an in-window header from `Attesting`
submits on the first application and then observes the transaction status
on the second. -/
theorem replay_idempotent_of_safe (H : Nat → Nat → Nat → Nat) (cl : Client)
    (op n bh : Nat) (s s1 : State) (e1 : Eff)
    (hsafe : replay_safe cl n s = true)
    (h1 : handle_new_block_header H cl op n bh s = (.ok s1, e1)) :
    (handle_new_block_header H cl op n bh s1).1 = .ok s1 ∧
      (handle_new_block_header H cl op n bh s1).2.counters = (0, 0, 0, 0) := by
  cases s with
  | WaitingForNextEpoch info =>
      simp only [replay_safe] at hsafe
      rw [handle_in_epoch _ _ _ _ _ _ hsafe] at h1
      simp only [dispatch, Prod.mk.injEq, Except.ok.injEq] at h1
      obtain ⟨h1a, -⟩ := h1
      subst h1a
      rw [handle_in_epoch _ _ _ _ _ _ hsafe]
      simp [dispatch, Eff.zero, Eff.counters]
  | BeforeBlockToAttest info b =>
      simp only [replay_safe, Bool.and_eq_true, decide_eq_true_eq] at hsafe
      obtain ⟨hin, hle⟩ := hsafe
      rw [handle_in_epoch _ _ _ _ _ _ hin] at h1
      by_cases hlt : n < b
      · simp only [dispatch, hlt, if_true, Prod.mk.injEq,
          Except.ok.injEq] at h1
        obtain ⟨h1a, -⟩ := h1
        subst h1a
        rw [handle_in_epoch _ _ _ _ _ _ hin]
        simp [dispatch, hlt, Eff.zero, Eff.counters]
      · have heq : n = b := by omega
        subst heq
        simp only [dispatch, Nat.lt_irrefl, if_false, if_true,
          Prod.mk.injEq, Except.ok.injEq] at h1
        obtain ⟨h1a, -⟩ := h1
        subst h1a
        have hin2 : (State.Attesting info
            ⟨bh, n + MIN_ATTESTATION_WINDOW,
              n + info.attestation_window⟩).block_in_current_epoch n
            = true := hin
        rw [handle_in_epoch _ _ _ _ _ _ hin2]
        have hwlt : AttestationParams.in_window
            ⟨bh, n + MIN_ATTESTATION_WINDOW, n + info.attestation_window⟩ n
              = .lt := by
          simp [AttestationParams.in_window, MIN_ATTESTATION_WINDOW]
        simp [dispatch, hwlt, Eff.zero, Eff.counters]
  | Attesting info params =>
      simp only [replay_safe, Bool.and_eq_true] at hsafe
      obtain ⟨hin, hm⟩ := hsafe
      rw [handle_in_epoch _ _ _ _ _ _ hin] at h1
      rcases hwo : params.in_window n with _ | _ | _
      · rw [hwo] at hm
        simp only [dispatch, hwo, Prod.mk.injEq, Except.ok.injEq] at h1
        obtain ⟨h1a, -⟩ := h1
        subst h1a
        rw [handle_in_epoch _ _ _ _ _ _ hin]
        simp [dispatch, hwo, Eff.zero, Eff.counters]
      · rw [hwo] at hm
        simp at hm
      · rw [hwo] at hm
        simp only [dispatch, hwo, Prod.mk.injEq, Except.ok.injEq] at h1
        obtain ⟨h1a, -⟩ := h1
        subst h1a
        have hinW : (State.WaitingForNextEpoch info).block_in_current_epoch n
            = true := hin
        rw [handle_in_epoch _ _ _ _ _ _ hinW]
        simp [dispatch, Eff.zero, Eff.counters]
  | AttestationSubmitted info params th =>
      simp only [replay_safe, Bool.and_eq_true] at hsafe
      obtain ⟨hin, hm⟩ := hsafe
      rw [handle_in_epoch _ _ _ _ _ _ hin] at h1
      rcases hwo : params.in_window n with _ | _ | _
      · rw [hwo] at hm
        rcases hs : cl.attestation_status th with e | st
        · rw [hs] at hm
          simp only [dispatch, hwo, hs, Prod.mk.injEq, Except.ok.injEq]
            at h1
          obtain ⟨h1a, -⟩ := h1
          subst h1a
          rw [handle_in_epoch _ _ _ _ _ _ hin]
          simp [dispatch, hwo, hs, effStatusQuery, Eff.counters]
        · rw [hs] at hm
          cases st with
          | Received =>
              simp only [dispatch, hwo, hs, Prod.mk.injEq, Except.ok.injEq]
                at h1
              obtain ⟨h1a, -⟩ := h1
              subst h1a
              rw [handle_in_epoch _ _ _ _ _ _ hin]
              simp [dispatch, hwo, hs, effStatusQuery, Eff.counters]
          | Rejected => simp at hm
          | AcceptedOnL2 er =>
              cases er with
              | Succeeded =>
                  simp only [dispatch, hwo, hs, reduceCtorEq, if_false,
                    Prod.mk.injEq, Except.ok.injEq] at h1
                  obtain ⟨h1a, -⟩ := h1
                  subst h1a
                  have hinW : (State.WaitingForNextEpoch
                      info).block_in_current_epoch n = true := hin
                  rw [handle_in_epoch _ _ _ _ _ _ hinW]
                  simp [dispatch, Eff.zero, Eff.counters]
              | Reverted => simp at hm
          | AcceptedOnL1 er =>
              cases er with
              | Succeeded =>
                  simp only [dispatch, hwo, hs, reduceCtorEq, if_false,
                    Prod.mk.injEq, Except.ok.injEq] at h1
                  obtain ⟨h1a, -⟩ := h1
                  subst h1a
                  have hinW : (State.WaitingForNextEpoch
                      info).block_in_current_epoch n = true := hin
                  rw [handle_in_epoch _ _ _ _ _ _ hinW]
                  simp [dispatch, Eff.zero, Eff.counters]
              | Reverted => simp at hm
      · rw [hwo] at hm
        rcases hs : cl.attestation_status th with e | st
        · rw [hs] at hm
          simp only [dispatch, hwo, hs, Prod.mk.injEq, Except.ok.injEq]
            at h1
          obtain ⟨h1a, -⟩ := h1
          subst h1a
          rw [handle_in_epoch _ _ _ _ _ _ hin]
          simp [dispatch, hwo, hs, effStatusQuery, Eff.counters]
        · rw [hs] at hm
          cases st with
          | Received =>
              simp only [dispatch, hwo, hs, Prod.mk.injEq, Except.ok.injEq]
                at h1
              obtain ⟨h1a, -⟩ := h1
              subst h1a
              rw [handle_in_epoch _ _ _ _ _ _ hin]
              simp [dispatch, hwo, hs, effStatusQuery, Eff.counters]
          | Rejected => simp at hm
          | AcceptedOnL2 er =>
              cases er with
              | Succeeded =>
                  simp only [dispatch, hwo, hs, reduceCtorEq, if_false,
                    Prod.mk.injEq, Except.ok.injEq] at h1
                  obtain ⟨h1a, -⟩ := h1
                  subst h1a
                  have hinW : (State.WaitingForNextEpoch
                      info).block_in_current_epoch n = true := hin
                  rw [handle_in_epoch _ _ _ _ _ _ hinW]
                  simp [dispatch, Eff.zero, Eff.counters]
              | Reverted => simp at hm
          | AcceptedOnL1 er =>
              cases er with
              | Succeeded =>
                  simp only [dispatch, hwo, hs, reduceCtorEq, if_false,
                    Prod.mk.injEq, Except.ok.injEq] at h1
                  obtain ⟨h1a, -⟩ := h1
                  subst h1a
                  have hinW : (State.WaitingForNextEpoch
                      info).block_in_current_epoch n = true := hin
                  rw [handle_in_epoch _ _ _ _ _ _ hinW]
                  simp [dispatch, Eff.zero, Eff.counters]
              | Reverted => simp at hm
      · simp only [dispatch, hwo, Prod.mk.injEq, Except.ok.injEq] at h1
        obtain ⟨h1a, -⟩ := h1
        subst h1a
        have hinW : (State.WaitingForNextEpoch info).block_in_current_epoch n
            = true := hin
        rw [handle_in_epoch _ _ _ _ _ _ hinW]
        simp [dispatch, Eff.zero, Eff.counters]

/-- Witness for C9 (amended) in `WaitingForNextEpoch` at block 5. -/
theorem replay_idempotent_of_safe_witness :
    replay_safe clPending 5 (.WaitingForNextEpoch infoA) = true ∧
      handle_new_block_header (Hconst 5) clPending 8 5 0
          (.WaitingForNextEpoch infoA) =
        (.ok (State.WaitingForNextEpoch infoA), Eff.zero) ∧
      ((handle_new_block_header (Hconst 5) clPending 8 5 0
          (.WaitingForNextEpoch infoA)).1 =
        .ok (State.WaitingForNextEpoch infoA) ∧
      (handle_new_block_header (Hconst 5) clPending 8 5 0
          (.WaitingForNextEpoch infoA)).2.counters = (0, 0, 0, 0)) :=
  ⟨by decide, by decide,
    replay_idempotent_of_safe (Hconst 5) clPending 8 5 0
      (.WaitingForNextEpoch infoA) (.WaitingForNextEpoch infoA) Eff.zero
      (by decide) (by decide)⟩

/-- Counterexample for C9 as stated: at in-window block 16 from
`Attesting`, the first application submits (moving to
`AttestationSubmitted`), while the second application of the very same
header observes the accepted status and moves on to
`WaitingForNextEpoch`, bumping `confirmed_count` — so replaying the
header is not a no-op on `State` or on counters. -/
theorem replay_header_not_idempotent_cex :
    (handle_new_block_header (Hconst 5) clAccepted 8 16 0
        (.Attesting infoA pA)).1 =
      .ok (State.AttestationSubmitted infoA pA 99) ∧
    (handle_new_block_header (Hconst 5) clAccepted 8 16 0
        (.AttestationSubmitted infoA pA 99)).1 ≠
      .ok (State.AttestationSubmitted infoA pA 99) ∧
    (Eff.add
        (handle_new_block_header (Hconst 5) clAccepted 8 16 0
          (.Attesting infoA pA)).2
        (handle_new_block_header (Hconst 5) clAccepted 8 16 0
          (.AttestationSubmitted infoA pA 99)).2).counters ≠
      (handle_new_block_header (Hconst 5) clAccepted 8 16 0
        (.Attesting infoA pA)).2.counters := by decide

end ValidatorAttestation
